import Mathlib

/-!
Shallow embedding of the kinematic character controller in
src/libraries/physics/src/CharacterController.cpp (stojce/hifi), together
with theorems settling the specification claims about it.

Modelling conventions:
* btScalar (float) is embedded as the exact rationals; the controller's
  own arithmetic is plain +, -, *, / and comparisons, which translate
  directly.
* btVector3 is a record of three rationals with the Bullet operations the
  controller uses (add, sub, scalar mul, dot, length2).  btVector3.length
  (a square root, computed by the external Bullet library, not by this
  repository) is modelled, where needed, as an explicit argument
  constrained in the theorems to be the nonnegative square root of
  length2.
* The external collision world (rayTest / convexSweepTest results) is an
  oracle argument: each query's outcome (no hit, or a closest hit with
  fraction and world-space normal) is an input to the phase function, so
  theorems quantify over all possible worlds.
* Unsigned C integers (the uint32_t pending flags, quint64 timestamps)
  are embedded as Nat with explicit masking modulo 2^32 / 2^64 where the
  code relies on wraparound.
-/

namespace HifiCharacter

/-- Embedding of btVector3: three float components, floats modelled as ℚ. -/
structure Vec3 where
  x : ℚ
  y : ℚ
  z : ℚ
deriving DecidableEq, Repr

instance : Zero Vec3 := ⟨⟨0, 0, 0⟩⟩

instance : Add Vec3 := ⟨fun a b => ⟨a.x + b.x, a.y + b.y, a.z + b.z⟩⟩

instance : Sub Vec3 := ⟨fun a b => ⟨a.x - b.x, a.y - b.y, a.z - b.z⟩⟩

instance : Neg Vec3 := ⟨fun a => ⟨-a.x, -a.y, -a.z⟩⟩

instance : SMul ℚ Vec3 := ⟨fun c a => ⟨c * a.x, c * a.y, c * a.z⟩⟩

/-- btVector3::dot. -/
def Vec3.dot (a b : Vec3) : ℚ := a.x * b.x + a.y * b.y + a.z * b.z

/-- btVector3::length2 (squared length). -/
def Vec3.length2 (v : Vec3) : ℚ := v.dot v

/-- btVector3::setInterpolate3(a, b, t) = a + t (b - a). -/
def setInterpolate3 (a b : Vec3) (t : ℚ) : Vec3 := a + t • (b - a)

/-- PENDING_FLAG_ADD_TO_SIMULATION = 1 << 0. -/
def PENDING_FLAG_ADD_TO_SIMULATION : ℕ := 1

/-- PENDING_FLAG_REMOVE_FROM_SIMULATION = 1 << 1. -/
def PENDING_FLAG_REMOVE_FROM_SIMULATION : ℕ := 2

/-- PENDING_FLAG_UPDATE_SHAPE = 1 << 2. -/
def PENDING_FLAG_UPDATE_SHAPE : ℕ := 4

/-- PENDING_FLAG_JUMP = 1 << 3. -/
def PENDING_FLAG_JUMP : ℕ := 8

/-- The all-ones 32-bit word: bitwise complements of uint32_t flag masks
are taken against it. -/
def UINT32_MASK : ℕ := 2 ^ 32 - 1

/-- FLT_EPSILON, exactly 2 to the power -23 for IEEE single precision. -/
def FLT_EPSILON : ℚ := 1 / 8388608

/-- USECS_PER_SECOND, the quint64 JUMP_TO_HOVER_PERIOD in jump(). -/
def USECS_PER_SECOND : ℕ := 1000000

/-- MIN_STEP_DISTANCE_SQUARED in stepForward: 1.0e-6f. -/
def MIN_STEP_DISTANCE_SQUARED : ℚ := 1 / 1000000

/-- INCREMENTAL_RESOLUTION_FACTOR in recoverFromPenetration: 0.2f. -/
def INCREMENTAL_RESOLUTION_FACTOR : ℚ := 1 / 5

/-- MAX_RESOLUTION_SPEED in postSimulation: 5.0f m/sec. -/
def MAX_RESOLUTION_SPEED : ℚ := 5

/-- The mutable state of one CharacterController instance; fields mirror
the members of the C++ class that the claims touch.  The ghost object's
world transform origin is identified with currentPosition (playerStep
writes it back at the end of each tick); the presence of a dynamics world
pointer is a Bool. -/
structure CharState where
  enabled : Bool
  dynamicsWorldPresent : Bool
  currentPosition : Vec3
  targetPosition : Vec3
  currentUp : Vec3
  walkDirection : Vec3
  normalizedDirection : Vec3
  lastPosition : Vec3
  verticalVelocity : ℚ
  verticalOffset : ℚ
  gravity : ℚ
  maxFallSpeed : ℚ
  jumpSpeed : ℚ
  velocityTimeInterval : ℚ
  stepDt : ℚ
  maxSlopeCosine : ℚ
  lastStepUp : ℚ
  radius : ℚ
  halfHeight : ℚ
  stepUpHeight : ℚ
  stepDownHeight : ℚ
  isOnGround : Bool
  isJumping : Bool
  isHovering : Bool
  jumpToHoverStart : ℕ
  pendingFlags : ℕ
deriving Repr

/-- Outcome of a convex sweep as delivered by the callback: present iff
the callback recorded a hit; carries m_closestHitFraction and
m_hitNormalWorld. -/
structure SweepHit where
  hitFraction : ℚ
  hitNormalWorld : Vec3
deriving DecidableEq, Repr

/-- MAX_SCAN_HEIGHT in scanDown: 20.0f + _halfHeight + _radius. -/
def maxScanHeight (s : CharState) : ℚ := 20 + s.halfHeight + s.radius

/-- MIN_HOVER_HEIGHT in scanDown: 3.0f + _halfHeight + _radius. -/
def minHoverHeight (s : CharState) : ℚ := 3 + s.halfHeight + s.radius

/-- CharacterController::scanDown.  The downward ray test of length
maxScanHeight is the oracle argument: none when the callback has no hit,
some f when the closest hit fraction is f. -/
def scanDown (s : CharState) (rayHit : Option ℚ) : CharState :=
  match rayHit with
  | none => { s with isHovering := true }
  | some f =>
    if s.isHovering = true ∧ f * maxScanHeight s < minHoverHeight s then
      { s with isHovering := false }
    else
      s

/-- CharacterController::stepUp.  The upward convex sweep outcome (what
the btKinematicClosestNotMeConvexResultCallback recorded) is the oracle
argument.  The sweep start offset by the shape margin only affects the
external query, not the state update. -/
def stepUp (s : CharState) (hit : Option SweepHit) : CharState :=
  let target := s.currentPosition + s.stepUpHeight • s.currentUp
  match hit with
  | none =>
    { s with targetPosition := target, currentPosition := target, lastStepUp := s.stepUpHeight }
  | some h =>
    if h.hitNormalWorld.dot s.currentUp > 0 then
      { s with targetPosition := target,
               verticalVelocity := 0,
               verticalOffset := 0,
               lastStepUp := s.stepUpHeight * h.hitFraction,
               currentPosition := setInterpolate3 s.currentPosition target h.hitFraction }
    else
      { s with targetPosition := target,
               verticalVelocity := 0,
               verticalOffset := 0,
               lastStepUp := s.stepUpHeight,
               currentPosition := target }

/-- CharacterController::stepDown.  The two downward convex sweeps
(through StepDownConvexResultCallback) are oracle arguments: hit1 for the
first sweep of displacement (verticalVelocity dt - lastStepUp) up, hit2
for the conditional second sweep of displacement -stepDownHeight up; each
is the recorded closest hit fraction, none when the callback has no hit.
hit2 is consulted only on the branch where the code performs the second
sweep. -/
def stepDown (s : CharState) (dt : ℚ) (hit1 hit2 : Option ℚ) : CharState :=
  let step := (s.verticalVelocity * dt - s.lastStepUp) • s.currentUp
  let target := s.currentPosition + step
  let s0 := { s with targetPosition := target, isOnGround := false }
  match hit1 with
  | some f =>
    { s0 with currentPosition := s0.currentPosition + f • step,
              verticalVelocity := 0,
              verticalOffset := 0,
              isJumping := false,
              isOnGround := true }
  | none =>
    if s0.isJumping = false then
      let step2 := -s.stepDownHeight • s.currentUp
      let s1 := { s0 with currentPosition := s0.targetPosition,
                          targetPosition := s0.targetPosition + step2 }
      match hit2 with
      | some f =>
        { s1 with currentPosition := s1.currentPosition + f • step2,
                  verticalVelocity := 0,
                  verticalOffset := 0,
                  isJumping := false,
                  isOnGround := true }
      | none => { s1 with lastStepUp := 0 }
    else
      { s0 with currentPosition := s0.targetPosition }

/-- The while loop of CharacterController::stepForward.  fuel is the
remaining value of maxIter (10 at entry); i indexes the successive convex
sweeps so that the oracle hits can answer each sweep; stepLength2 is the
loop variable of the same name.  Returns the final currentPosition,
targetPosition and the number of sweeps performed. -/
def stepForwardAux (hits : ℕ → Option SweepHit) :
    ℕ → ℕ → Vec3 → Vec3 → ℚ → Vec3 × Vec3 × ℕ
  | 0, _, cur, target, _ => (cur, target, 0)
  | fuel + 1, i, cur, target, stepLength2 =>
    if stepLength2 > MIN_STEP_DISTANCE_SQUARED then
      match hits i with
      | some h =>
        let step := target - cur
        let step2 := step + (step.dot h.hitNormalWorld * (1 - h.hitFraction)) • h.hitNormalWorld
        let r := stepForwardAux hits fuel (i + 1) cur (cur + step2) step2.length2
        (r.1, r.2.1, r.2.2 + 1)
      | none => (target, target, 1)
    else
      (cur, target, 0)

/-- CharacterController::stepForward on positions: target starts at
currentPosition + movement and the deflection loop runs with maxIter = 10.
The temporary shape-margin enlargement only affects the external sweep
queries, which are the oracle. -/
def stepForward (cur movement : Vec3) (hits : ℕ → Option SweepHit) : Vec3 × Vec3 × ℕ :=
  let target := cur + movement
  stepForwardAux hits 10 0 cur target (target - cur).length2

/-- CharacterController::stepForward as a state update. -/
def stepForwardS (s : CharState) (movement : Vec3) (hits : ℕ → Option SweepHit) : CharState :=
  let r := stepForward s.currentPosition movement hits
  { s with currentPosition := r.1, targetPosition := r.2.1 }

/-- The vertical-velocity integration at the top of
CharacterController::playerStep: hovering relaxes the velocity with
timescale HOVER_RELAXATION_TIMESCALE = 1, otherwise gravity is applied
and the result clamped to [-maxFallSpeed, jumpSpeed]; verticalOffset is
then verticalVelocity times dt. -/
def integrateVelocity (s : CharState) (dt : ℚ) : CharState :=
  let v :=
    if s.isHovering = true then
      s.verticalVelocity * (1 - dt / 1)
    else
      let v0 := s.verticalVelocity - s.gravity * dt
      if v0 > s.jumpSpeed then s.jumpSpeed
      else if v0 < -s.maxFallSpeed then -s.maxFallSpeed
      else v0
  { s with verticalVelocity := v, verticalOffset := v * dt }

/-- The substep movement of playerStep: dtMoving = min(dt,
velocityTimeInterval), move = walkDirection * dtMoving. -/
def substepMove (s : CharState) (dt : ℚ) : Vec3 :=
  (if dt < s.velocityTimeInterval then dt else s.velocityTimeInterval) • s.walkDirection

/-- playerStep's bookkeeping between stepUp and stepForward:
velocityTimeInterval -= dt and stepDt += dt. -/
def consumeDt (s : CharState) (dt : ℚ) : CharState :=
  { s with velocityTimeInterval := s.velocityTimeInterval - dt, stepDt := s.stepDt + dt }

/-- All collision-world answers one playerStep tick can consume: the
scanDown ray, the stepUp sweep, the stepForward sweeps (indexed by
iteration) and the two stepDown sweeps. -/
structure WorldOracle where
  scanRay : Option ℚ
  stepUpHit : Option SweepHit
  fwdHits : ℕ → Option SweepHit
  downHit1 : Option ℚ
  downHit2 : Option ℚ

/-- The compound of playerStep's first three phases: vertical-velocity
integration, scanDown, stepUp. -/
def afterUpPhase (s : CharState) (dt : ℚ) (w : WorldOracle) : CharState :=
  stepUp (scanDown (integrateVelocity s dt) w.scanRay) w.stepUpHit

/-- CharacterController::playerStep: no-op when disabled, otherwise
integrate vertical velocity, then scanDown, stepUp, consume the substep
of the pending velocity interval, stepForward and stepDown, in the code's
order. -/
def playerStep (s : CharState) (dt : ℚ) (w : WorldOracle) : CharState :=
  if s.enabled = false then s
  else
    stepDown
      (stepForwardS (consumeDt (afterUpPhase s dt w) dt) (substepMove (afterUpPhase s dt w) dt)
        w.fwdHits)
      dt w.downHit1 w.downHit2

/-- Subtraction of quint64 timestamps: now - start computed in unsigned
64-bit arithmetic (operands below 2^64). -/
def sub64 (a b : ℕ) : ℕ := (a + 2 ^ 64 - b % 2 ^ 64) % 2 ^ 64

/-- CharacterController::jump.  now is the value usecTimestampNow()
returns (external utility). -/
def jump (s : CharState) (now : ℕ) : CharState :=
  let s1 := { s with pendingFlags := s.pendingFlags ||| PENDING_FLAG_JUMP }
  if s1.isHovering = false then
    if s1.isJumping = false then
      { s1 with jumpToHoverStart := now }
    else
      if sub64 now s1.jumpToHoverStart < USECS_PER_SECOND then
        { s1 with isHovering := true }
      else s1
  else s1

/-- CharacterController::needsAddition. -/
def needsAddition (s : CharState) : Bool :=
  s.pendingFlags &&& PENDING_FLAG_ADD_TO_SIMULATION != 0

/-- CharacterController::needsRemoval. -/
def needsRemoval (s : CharState) : Bool :=
  s.pendingFlags &&& PENDING_FLAG_REMOVE_FROM_SIMULATION != 0

/-- CharacterController::setEnabled.  The bitwise complement of the
uint32_t ADD flag is UINT32_MASK - PENDING_FLAG_ADD_TO_SIMULATION. -/
def setEnabled (s : CharState) (enabled : Bool) : CharState :=
  if enabled ≠ s.enabled then
    if enabled = true then
      { s with pendingFlags := s.pendingFlags ||| PENDING_FLAG_ADD_TO_SIMULATION,
               isHovering := true,
               enabled := enabled }
    else
      let f0 :=
        if s.dynamicsWorldPresent = true then
          s.pendingFlags ||| PENDING_FLAG_REMOVE_FROM_SIMULATION
        else s.pendingFlags
      { s with pendingFlags := f0 &&& (UINT32_MASK - PENDING_FLAG_ADD_TO_SIMULATION),
               isOnGround := false,
               enabled := enabled }
  else s

/-- The static helper getNormalizedVector.  vLength is the value the
external btVector3::length() returns; the C++ code computes it first and
normalizes only when it is at least FLT_EPSILON, so the componentwise
division v / vLength is written (1/vLength) times v. -/
def getNormalizedVector (v : Vec3) (vLength : ℚ) : Vec3 :=
  if vLength < FLT_EPSILON then 0
  else (1 / vLength) • v

/-- CharacterController::setVelocityForTimeInterval: stores the walk
direction, its normalization through getNormalizedVector, and accumulates
the pending time interval. -/
def setVelocityForTimeInterval (s : CharState) (velocity : Vec3) (vLength timeInterval : ℚ) :
    CharState :=
  { s with walkDirection := velocity,
           normalizedDirection := getNormalizedVector velocity vLength,
           velocityTimeInterval := s.velocityTimeInterval + timeInterval }

/-- One btManifoldPoint as recoverFromPenetration reads it: separation
distance, m_normalWorldOnB and the two world-space contact positions. -/
structure ManifoldContact where
  dist : ℚ
  normalWorldOnB : Vec3
  positionWorldOnB : Vec3
  positionWorldOnA : Vec3
deriving DecidableEq, Repr

/-- The per-contact body of recoverFromPenetration's manifold loop: for a
contact with separation dist and direction sign (1 when the ghost is
body0, -1 otherwise), the corrective displacement added to
currentPosition, or none when the contact is skipped (nonnegative
separation, or a non-walkable contact whose height over the character
base — computed from the loop-invariant basePosition captured before the
loop — is below lastStepUp). -/
def contactDisplacement (up : Vec3) (maxSlopeCosine radius halfHeight lastStepUp : ℚ)
    (basePosition : Vec3) (directionSign : ℚ) (pt : ManifoldContact) : Option Vec3 :=
  if pt.dist < 0 then
    let normal := directionSign • pt.normalWorldOnB
    let useContact : Bool :=
      if normal.dot up < maxSlopeCosine then
        let collisionPoint :=
          if directionSign > 0 then pt.positionWorldOnB else pt.positionWorldOnA
        let characterBase := basePosition - (radius + halfHeight) • up
        let collisionHeight := (collisionPoint - characterBase).dot up
        if collisionHeight < lastStepUp then false else true
      else true
    if useContact = true then some ((|pt.dist| * INCREMENTAL_RESOLUTION_FACTOR) • normal)
    else none
  else none

/-- The contact loop of recoverFromPenetration over the listed (direction
sign, manifold point) pairs: accumulates the per-contact displacements
into currentPosition (basePosition stays the position captured before the
loop, as in the code) and reports whether any penetration was resolved. -/
def recoverFromPenetration (up : Vec3) (maxSlopeCosine radius halfHeight lastStepUp : ℚ)
    (startPosition : Vec3) (contacts : List (ℚ × ManifoldContact)) : Vec3 × Bool :=
  contacts.foldl
    (fun acc c =>
      match contactDisplacement up maxSlopeCosine radius halfHeight lastStepUp startPosition
          c.1 c.2 with
      | some d => (acc.1 + d, true)
      | none => acc)
    (startPosition, false)

/-- One LocalConvexResult as btKinematicClosestNotMeConvexResultCallback
reads it.  hitNormalWorld is the world-space hit normal: when the
callback receives a local-space normal it multiplies by the hit object's
world basis (an external Bullet transform), which is precomposed here. -/
structure ConvexResult where
  isMe : Bool
  hasContactResponse : Bool
  hitNormalWorld : Vec3
  hitFraction : ℚ
deriving DecidableEq, Repr

/-- What the base ClosestConvexResultCallback records across
addSingleResult calls. -/
structure ClosestConvexCallbackState where
  closestHitFraction : ℚ
  hasHit : Bool
  hitNormalWorld : Vec3
deriving DecidableEq, Repr

/-- ClosestConvexResultCallback::addSingleResult (external Bullet base
class): record the hit and return its fraction. -/
def closestConvexRecord (cb : ClosestConvexCallbackState) (r : ConvexResult) :
    ClosestConvexCallbackState × ℚ :=
  (⟨r.hitFraction, true, r.hitNormalWorld⟩, r.hitFraction)

/-- btKinematicClosestNotMeConvexResultCallback::addSingleResult: skip
self-hits, response-free objects, and contacts whose normal dotted with
the callback's up (the negated sweep direction) is below minSlopeDot;
everything else is recorded by the base class. -/
def notMeConvexAddSingleResult (up : Vec3) (minSlopeDot : ℚ)
    (cb : ClosestConvexCallbackState) (r : ConvexResult) : ClosestConvexCallbackState × ℚ :=
  if r.isMe = true then (cb, 1)
  else if r.hasContactResponse = false then (cb, 1)
  else if up.dot r.hitNormalWorld < minSlopeDot then (cb, 1)
  else closestConvexRecord cb r

/-- The position CharacterController::postSimulation writes to the avatar
before subtracting the rotated shape-local offset.  position is the ghost
object's transform origin, lastPosition and stepDt the values
preSimulation recorded and playerStep accumulated;
finalVelocityLength and stepLength are the lengths (external sqrt) of
walkDirection + verticalVelocity currentUp and of position -
lastPosition, constrained in the theorem. -/
def postSimulationPosition (position lastPosition : Vec3)
    (stepDt finalVelocityLength stepLength : ℚ) : Vec3 :=
  let finalStep := position - lastPosition
  let maxStepLength := max MAX_RESOLUTION_SPEED (2 * finalVelocityLength) * stepDt
  if stepLength > maxStepLength then
    lastPosition + (maxStepLength / stepLength) • finalStep
  else
    position

/-- A representative controller state for concrete evaluations: capsule
radius 0.3, halfHeight 0.6, the constructor's gravity 5, terminal
velocity 55 and jump speed 5. -/
def sampleState : CharState where
  enabled := true
  dynamicsWorldPresent := true
  currentPosition := 0
  targetPosition := 0
  currentUp := ⟨0, 1, 0⟩
  walkDirection := 0
  normalizedDirection := 0
  lastPosition := 0
  verticalVelocity := 0
  verticalOffset := 0
  gravity := 5
  maxFallSpeed := 55
  jumpSpeed := 5
  velocityTimeInterval := 0
  stepDt := 0
  maxSlopeCosine := 7071 / 10000
  lastStepUp := 0
  radius := 3 / 10
  halfHeight := 3 / 5
  stepUpHeight := 11 / 20
  stepDownHeight := 3 / 10
  isOnGround := false
  isJumping := false
  isHovering := false
  jumpToHoverStart := 0
  pendingFlags := 0

/-- A state that enters playerStep hovering with a large vertical
velocity; all other fields as in sampleState. -/
def clampCexState : CharState :=
  { sampleState with isHovering := true, verticalVelocity := 100 }

/-- A world in which the scanDown ray finds a floor at fraction 1/100
(close enough to clear hovering) and no sweep hits anything. -/
def clampCexOracle : WorldOracle where
  scanRay := some (1 / 100)
  stepUpHit := none
  fwdHits := fun _ => none
  downHit1 := none
  downHit2 := none

/-- A walkable floor contact 0.1 above the character base, penetrating by
0.1: its normal is straight up. -/
def ledgeCexContact : ManifoldContact where
  dist := -(1 / 10)
  normalWorldOnB := ⟨0, 1, 0⟩
  positionWorldOnB := ⟨0, -(9 / 10), 0⟩
  positionWorldOnA := 0

/-- A sideways contact (normal along x) 0.1 above the character base,
penetrating by 0.1. -/
def ledgeSideContact : ManifoldContact where
  dist := -(1 / 10)
  normalWorldOnB := ⟨1, 0, 0⟩
  positionWorldOnB := ⟨0, -(9 / 10), 0⟩
  positionWorldOnA := 0

/-- A sweep contact whose normal is horizontal, so it fails stepUp's
0.7071 slope test against up = -currentUp; fraction 1/2. -/
def slopeCexResult : ConvexResult where
  isMe := false
  hasContactResponse := true
  hitNormalWorld := ⟨1, 0, 0⟩
  hitFraction := 1 / 2

/-- A fresh ClosestConvexResultCallback state: closestHitFraction 1, no
hit recorded. -/
def slopeCexCb : ClosestConvexCallbackState where
  closestHitFraction := 1
  hasHit := false
  hitNormalWorld := 0

theorem Vec3.add_def (a b : Vec3) : a + b = ⟨a.x + b.x, a.y + b.y, a.z + b.z⟩ := rfl

theorem Vec3.sub_def (a b : Vec3) : a - b = ⟨a.x - b.x, a.y - b.y, a.z - b.z⟩ := rfl

theorem Vec3.smul_def (c : ℚ) (a : Vec3) : c • a = ⟨c * a.x, c * a.y, c * a.z⟩ := rfl

theorem Vec3.length2_smul (c : ℚ) (v : Vec3) : (c • v).length2 = c ^ 2 * v.length2 := by
  simp only [Vec3.length2, Vec3.dot, Vec3.smul_def]
  ring

theorem Vec3.length2_nonneg (v : Vec3) : 0 ≤ v.length2 := by
  simp only [Vec3.length2, Vec3.dot]
  have hx := mul_self_nonneg v.x
  have hy := mul_self_nonneg v.y
  have hz := mul_self_nonneg v.z
  linarith

theorem Vec3.add_sub_cancel_left (a v : Vec3) : a + v - a = v := by
  cases a
  cases v
  simp only [Vec3.add_def, Vec3.sub_def, Vec3.mk.injEq]
  refine ⟨by ring, by ring, by ring⟩

/-- C2: scanDown with no hit enables hovering; a hit while hovering at
distance (fraction times ray length) strictly below minHoverHeight clears
hovering; any other hit leaves the hover state unchanged. -/
theorem scanDown_hover_spec (s : CharState) (f : ℚ) :
    (scanDown s none).isHovering = true ∧
    (s.isHovering = true → f * maxScanHeight s < minHoverHeight s →
      (scanDown s (some f)).isHovering = false) ∧
    (s.isHovering = false → (scanDown s (some f)).isHovering = s.isHovering) ∧
    (s.isHovering = true → ¬ f * maxScanHeight s < minHoverHeight s →
      (scanDown s (some f)).isHovering = s.isHovering) := by
  refine ⟨rfl, ?_, ?_, ?_⟩
  · intro hHov hLt
    simp [scanDown, hHov, hLt]
  · intro hHov
    simp [scanDown, hHov]
  · intro hHov hGe
    simp [scanDown, hHov, hGe]

/-- Witness for C2: on the sample state, hovering, a hit at fraction
1/100 (distance 0.209, well inside minHoverHeight 3.9) clears hovering. -/
theorem scanDown_hover_spec_witness :
    (scanDown { sampleState with isHovering := true } (some (1 / 100))).isHovering = false :=
  (scanDown_hover_spec { sampleState with isHovering := true } (1 / 100)).2.1 rfl
    (by with_unfolding_all decide)

/-- C1: after stepDown, isOnGround holds exactly when one of the
performed downward sweeps reported a hit (the second sweep is performed
only when the first misses and the character is not jumping); and when
neither sweep hits while not jumping, the character stays airborne and
lastStepUp resets to 0. -/
theorem stepDown_ground_iff (s : CharState) (dt : ℚ) (hit1 hit2 : Option ℚ) :
    ((stepDown s dt hit1 hit2).isOnGround = true ↔
      hit1.isSome = true ∨ (hit1 = none ∧ s.isJumping = false ∧ hit2.isSome = true)) ∧
    (hit1 = none → hit2 = none → s.isJumping = false →
      (stepDown s dt hit1 hit2).isOnGround = false ∧
        (stepDown s dt hit1 hit2).lastStepUp = 0) := by
  constructor
  · cases hit1 with
    | some f => simp [stepDown]
    | none =>
      cases hJ : s.isJumping with
      | true => simp [stepDown, hJ]
      | false =>
        cases hit2 with
        | some f => simp [stepDown, hJ]
        | none => simp [stepDown, hJ]
  · intro h1 h2 hJ
    subst h1; subst h2
    simp [stepDown, hJ]

/-- Witness for C1 at a concrete input: both sweeps miss on the sample
state (not jumping), so the character is airborne with lastStepUp 0. -/
theorem stepDown_ground_iff_witness :
    (stepDown sampleState (1 / 60) none none).isOnGround = false ∧
    (stepDown sampleState (1 / 60) none none).lastStepUp = 0 :=
  (stepDown_ground_iff sampleState (1 / 60) none none).2 rfl rfl rfl

theorem stepForwardAux_count_le (hits : ℕ → Option SweepHit) (fuel i : ℕ)
    (cur target : Vec3) (sl2 : ℚ) :
    (stepForwardAux hits fuel i cur target sl2).2.2 ≤ fuel := by
  induction fuel generalizing i cur target sl2 with
  | zero => simp [stepForwardAux]
  | succ n ih =>
    rw [stepForwardAux]
    by_cases hgt : sl2 > MIN_STEP_DISTANCE_SQUARED
    · simp only [if_pos hgt]
      cases hits i with
      | some h =>
        simpa using Nat.succ_le_succ (ih (i + 1) cur _ _)
      | none => simp
    · simp [if_neg hgt]

/-- C6: in stepForward, an iteration whose sweep hits with normal n and
fraction f replaces the remaining step s = target - cur by
s + (s.dot n)(1 - f) n, sets target to cur + that new step and leaves cur
unchanged for the next iteration; an iteration whose sweep misses commits
cur := target and stops; the loop stops without sweeping once the
remaining squared step length is not above 1.0e-6; and at most 10 sweeps
are ever performed. -/
theorem stepForward_deflection_spec :
    (∀ hits fuel i (cur target : Vec3) (sl2 : ℚ) (h : SweepHit),
      sl2 > MIN_STEP_DISTANCE_SQUARED → hits i = some h →
      stepForwardAux hits (fuel + 1) i cur target sl2 =
        (let step2 := (target - cur) +
            ((target - cur).dot h.hitNormalWorld * (1 - h.hitFraction)) • h.hitNormalWorld
        let r := stepForwardAux hits fuel (i + 1) cur (cur + step2) step2.length2
        (r.1, r.2.1, r.2.2 + 1))) ∧
    (∀ hits fuel i (cur target : Vec3) (sl2 : ℚ),
      sl2 > MIN_STEP_DISTANCE_SQUARED → hits i = none →
      stepForwardAux hits (fuel + 1) i cur target sl2 = (target, target, 1)) ∧
    (∀ hits fuel i (cur target : Vec3) (sl2 : ℚ),
      ¬ sl2 > MIN_STEP_DISTANCE_SQUARED →
      stepForwardAux hits fuel i cur target sl2 = (cur, target, 0)) ∧
    (∀ hits (cur movement : Vec3), (stepForward cur movement hits).2.2 ≤ 10) := by
  refine ⟨?_, ?_, ?_, ?_⟩
  · intro hits fuel i cur target sl2 h hgt hhit
    rw [stepForwardAux, if_pos hgt, hhit]
  · intro hits fuel i cur target sl2 hgt hhit
    rw [stepForwardAux, if_pos hgt, hhit]
  · intro hits fuel i cur target sl2 hle
    cases fuel with
    | zero => rw [stepForwardAux]
    | succ n => rw [stepForwardAux, if_neg hle]
  · intro hits cur movement
    exact stepForwardAux_count_le hits 10 0 cur (cur + movement) _

/-- Witness for C6 at a concrete input: with remaining squared step 1 and
a missing sweep, the first iteration commits cur := target and stops
after one sweep. -/
theorem stepForward_deflection_spec_witness :
    stepForwardAux (fun _ => none) 10 0 (0 : Vec3) ⟨1, 0, 0⟩ 1 = (⟨1, 0, 0⟩, ⟨1, 0, 0⟩, 1) :=
  stepForward_deflection_spec.2.1 (fun _ => none) 9 0 0 ⟨1, 0, 0⟩ 1
    (by with_unfolding_all decide) rfl

theorem scanDown_vfields (s : CharState) (r : Option ℚ) :
    (scanDown s r).verticalVelocity = s.verticalVelocity ∧
    (scanDown s r).maxFallSpeed = s.maxFallSpeed ∧
    (scanDown s r).jumpSpeed = s.jumpSpeed := by
  cases r with
  | none => exact ⟨rfl, rfl, rfl⟩
  | some f =>
    by_cases hc : s.isHovering = true ∧ f * maxScanHeight s < minHoverHeight s
    · simp [scanDown, hc]
    · simp [scanDown, hc]

theorem stepUp_vfields (s : CharState) (hit : Option SweepHit) :
    ((stepUp s hit).verticalVelocity = 0 ∨
      (stepUp s hit).verticalVelocity = s.verticalVelocity) ∧
    (stepUp s hit).maxFallSpeed = s.maxFallSpeed ∧
    (stepUp s hit).jumpSpeed = s.jumpSpeed := by
  cases hit with
  | none => exact ⟨Or.inr rfl, rfl, rfl⟩
  | some h =>
    by_cases hd : h.hitNormalWorld.dot s.currentUp > 0
    · simp [stepUp, hd]
    · simp [stepUp, hd]

theorem stepDown_vfields (s : CharState) (dt : ℚ) (h1 h2 : Option ℚ) :
    ((stepDown s dt h1 h2).verticalVelocity = 0 ∨
      (stepDown s dt h1 h2).verticalVelocity = s.verticalVelocity) ∧
    (stepDown s dt h1 h2).maxFallSpeed = s.maxFallSpeed ∧
    (stepDown s dt h1 h2).jumpSpeed = s.jumpSpeed := by
  cases h1 with
  | some f => exact ⟨Or.inl rfl, rfl, rfl⟩
  | none =>
    cases hJ : s.isJumping with
    | true => simp [stepDown, hJ]
    | false =>
      cases h2 with
      | some f => simp [stepDown, hJ]
      | none => simp [stepDown, hJ]

/-- C5 (amended): when playerStep is entered on an enabled controller
that is not hovering, with nonnegative maxFallSpeed and jumpSpeed, the
vertical velocity on return lies within [-maxFallSpeed, jumpSpeed]: the
gravity branch clamps it into that interval, and every later phase either
keeps it or zeroes it. -/
theorem playerStep_velocity_clamp (s : CharState) (dt : ℚ) (w : WorldOracle)
    (hEn : s.enabled = true) (hdt : 0 ≤ dt)
    (hm : 0 ≤ s.maxFallSpeed) (hj : 0 ≤ s.jumpSpeed) (hh : s.isHovering = false) :
    -s.maxFallSpeed ≤ (playerStep s dt w).verticalVelocity ∧
      (playerStep s dt w).verticalVelocity ≤ s.jumpSpeed := by
  have hEn2 : ¬ s.enabled = false := by simp [hEn]
  rw [playerStep, if_neg hEn2]
  have h1 : -s.maxFallSpeed ≤ (integrateVelocity s dt).verticalVelocity ∧
      (integrateVelocity s dt).verticalVelocity ≤ s.jumpSpeed := by
    simp only [integrateVelocity, hh]
    split_ifs with ha hb hc <;> constructor <;> first | linarith | simp_all
  have h1m : (integrateVelocity s dt).maxFallSpeed = s.maxFallSpeed := rfl
  have h1j : (integrateVelocity s dt).jumpSpeed = s.jumpSpeed := rfl
  obtain ⟨h2v, h2m, h2j⟩ := scanDown_vfields (integrateVelocity s dt) w.scanRay
  obtain ⟨h3v, h3m, h3j⟩ := stepUp_vfields (scanDown (integrateVelocity s dt) w.scanRay)
    w.stepUpHit
  have h4v : (stepForwardS (consumeDt (afterUpPhase s dt w) dt)
        (substepMove (afterUpPhase s dt w) dt) w.fwdHits).verticalVelocity =
      (afterUpPhase s dt w).verticalVelocity := rfl
  have hA : afterUpPhase s dt w =
      stepUp (scanDown (integrateVelocity s dt) w.scanRay) w.stepUpHit := rfl
  obtain ⟨h5v, _, _⟩ := stepDown_vfields (stepForwardS (consumeDt (afterUpPhase s dt w) dt)
    (substepMove (afterUpPhase s dt w) dt) w.fwdHits) dt w.downHit1 w.downHit2
  rcases h5v with h5 | h5
  · rw [h5]
    constructor <;> linarith
  · rw [h5, h4v, hA]
    rcases h3v with h3 | h3
    · rw [h3]
      constructor <;> linarith
    · rw [h3, h2v]
      constructor <;> linarith [h1.1, h1.2]

/-- Counterexample to C5 as stated: an enabled controller, dt = 1/60 ≥ 0,
maxFallSpeed = 55 ≥ 0, jumpSpeed = 5 ≥ 0, yet playerStep returns with
isHovering = false and verticalVelocity = 295/3 > jumpSpeed: the tick
entered hovering (so the clamp branch never ran), and scanDown cleared
hovering in the same call. -/
theorem playerStep_velocity_clamp_counterexample :
    clampCexState.enabled = true ∧ (0 : ℚ) ≤ 1 / 60 ∧
    0 ≤ clampCexState.maxFallSpeed ∧ 0 ≤ clampCexState.jumpSpeed ∧
    (playerStep clampCexState (1 / 60) clampCexOracle).isHovering = false ∧
    ¬ (playerStep clampCexState (1 / 60) clampCexOracle).verticalVelocity ≤
        clampCexState.jumpSpeed := by
  with_unfolding_all decide

/-- Witness for the amended C5 at a concrete input: entering not hovering
on the sample state keeps the returned vertical velocity within
[-maxFallSpeed, jumpSpeed]. -/
theorem playerStep_velocity_clamp_witness :
    -sampleState.maxFallSpeed ≤
        (playerStep sampleState (1 / 60) clampCexOracle).verticalVelocity ∧
      (playerStep sampleState (1 / 60) clampCexOracle).verticalVelocity ≤
        sampleState.jumpSpeed :=
  playerStep_velocity_clamp sampleState (1 / 60) clampCexOracle rfl
    (by with_unfolding_all decide) (by with_unfolding_all decide)
    (by with_unfolding_all decide) rfl

/-- C7: a jump() call while not hovering and already jumping, issued less
than one second (in quint64 microseconds) after the jump-to-hover timer
was started, turns hovering on; a jump() call while not hovering and not
jumping only restarts the timer at the current time and leaves the hover
flag (and the jumping flag) untouched. -/
theorem jump_to_hover_spec (s : CharState) (now : ℕ) (hb : now < 2 ^ 64) :
    (s.isHovering = false → s.isJumping = true → s.jumpToHoverStart ≤ now →
      now - s.jumpToHoverStart < USECS_PER_SECOND → (jump s now).isHovering = true) ∧
    (s.isHovering = false → s.isJumping = false →
      (jump s now).isHovering = false ∧ (jump s now).jumpToHoverStart = now ∧
        (jump s now).isJumping = false) := by
  constructor
  · intro hh hj hle hlt
    have hs : sub64 now s.jumpToHoverStart < USECS_PER_SECOND := by
      simp only [sub64, USECS_PER_SECOND] at *
      omega
    simp [jump, hh, hj, hs]
  · intro hh hj
    simp [jump, hh, hj]

/-- Witness for C7 at a concrete input: jumping, timer started at 0,
re-issued jump at 500000 usec turns hovering on. -/
theorem jump_to_hover_spec_witness :
    (jump { sampleState with isJumping := true } 500000).isHovering = true :=
  (jump_to_hover_spec { sampleState with isJumping := true } 500000
    (by with_unfolding_all decide)).1 rfl rfl (by with_unfolding_all decide)
    (by with_unfolding_all decide)

theorem setEnabled_flags_lemma : ∀ p, p < 16 →
    p &&& (PENDING_FLAG_ADD_TO_SIMULATION ||| PENDING_FLAG_REMOVE_FROM_SIMULATION) = 0 →
    (((p ||| PENDING_FLAG_REMOVE_FROM_SIMULATION) &&&
        (UINT32_MASK - PENDING_FLAG_ADD_TO_SIMULATION)) ||| PENDING_FLAG_ADD_TO_SIMULATION =
      p ||| PENDING_FLAG_ADD_TO_SIMULATION ||| PENDING_FLAG_REMOVE_FROM_SIMULATION) ∧
    (((p ||| PENDING_FLAG_ADD_TO_SIMULATION ||| PENDING_FLAG_REMOVE_FROM_SIMULATION) &&&
        PENDING_FLAG_ADD_TO_SIMULATION != 0) = true) ∧
    (((p ||| PENDING_FLAG_ADD_TO_SIMULATION ||| PENDING_FLAG_REMOVE_FROM_SIMULATION) &&&
        PENDING_FLAG_REMOVE_FROM_SIMULATION != 0) = true) := by
  with_unfolding_all decide

/-- C8: from an enabled controller registered in a world whose ADD and
REMOVE bits are clear (the four flag bits being the only ones in use),
setEnabled(false) then setEnabled(true) leaves needsAddition() true, the
single REMOVE request scheduled by the disable still pending
(needsRemoval() true: the proxy is still enrolled, so the re-add must be
preceded by that removal), and the flag word is exactly the original with
the ADD and REMOVE bits set once each - no other bit changes and no
request is duplicated or lost. -/
theorem setEnabled_disable_enable (s : CharState)
    (hEn : s.enabled = true) (hW : s.dynamicsWorldPresent = true)
    (hp : s.pendingFlags < 16)
    (h0 : s.pendingFlags &&&
      (PENDING_FLAG_ADD_TO_SIMULATION ||| PENDING_FLAG_REMOVE_FROM_SIMULATION) = 0) :
    needsAddition (setEnabled (setEnabled s false) true) = true ∧
    needsRemoval (setEnabled (setEnabled s false) true) = true ∧
    (setEnabled (setEnabled s false) true).pendingFlags =
      s.pendingFlags ||| PENDING_FLAG_ADD_TO_SIMULATION |||
        PENDING_FLAG_REMOVE_FROM_SIMULATION ∧
    (setEnabled (setEnabled s false) true).enabled = true := by
  have h1 : setEnabled s false =
      { s with pendingFlags := (s.pendingFlags ||| PENDING_FLAG_REMOVE_FROM_SIMULATION) &&&
                 (UINT32_MASK - PENDING_FLAG_ADD_TO_SIMULATION),
               isOnGround := false,
               enabled := false } := by
    simp [setEnabled, hEn, hW]
  have h2 : setEnabled (setEnabled s false) true =
      { s with pendingFlags := ((s.pendingFlags ||| PENDING_FLAG_REMOVE_FROM_SIMULATION) &&&
                 (UINT32_MASK - PENDING_FLAG_ADD_TO_SIMULATION)) |||
                 PENDING_FLAG_ADD_TO_SIMULATION,
               isOnGround := false,
               isHovering := true,
               enabled := true } := by
    rw [h1]
    simp [setEnabled]
  obtain ⟨hEq, hAdd, hRem⟩ := setEnabled_flags_lemma s.pendingFlags hp h0
  rw [h2]
  simp only [needsAddition, needsRemoval]
  rw [hEq]
  exact ⟨hAdd, hRem, rfl, trivial⟩

/-- Witness for C8 at a concrete input: the sample state (enabled, in a
world, no pending flags) toggled off and on again. -/
theorem setEnabled_disable_enable_witness :
    needsAddition (setEnabled (setEnabled sampleState false) true) = true ∧
    needsRemoval (setEnabled (setEnabled sampleState false) true) = true ∧
    (setEnabled (setEnabled sampleState false) true).pendingFlags =
      sampleState.pendingFlags ||| PENDING_FLAG_ADD_TO_SIMULATION |||
        PENDING_FLAG_REMOVE_FROM_SIMULATION ∧
    (setEnabled (setEnabled sampleState false) true).enabled = true :=
  setEnabled_disable_enable sampleState rfl rfl (by with_unfolding_all decide)
    (by with_unfolding_all decide)

/-- C9: getNormalizedVector returns the zero vector whenever the length
is below FLT_EPSILON (so the division branch is never entered on a
near-zero-length input); otherwise it returns v divided by its length,
and that divisor is then necessarily nonzero; and
setVelocityForTimeInterval computes normalizedDirection through exactly
this helper. -/
theorem getNormalizedVector_safe (v : Vec3) (vLength : ℚ)
    (h0 : 0 ≤ vLength) (hsq : vLength ^ 2 = v.length2) :
    (vLength < FLT_EPSILON → getNormalizedVector v vLength = 0) ∧
    (¬ vLength < FLT_EPSILON →
      getNormalizedVector v vLength = (1 / vLength) • v ∧ vLength ≠ 0) ∧
    (∀ s t, (setVelocityForTimeInterval s v vLength t).normalizedDirection =
      getNormalizedVector v vLength) := by
  refine ⟨?_, ?_, ?_⟩
  · intro h
    simp [getNormalizedVector, h]
  · intro h
    refine ⟨by simp [getNormalizedVector, h], ?_⟩
    intro hz
    rw [hz] at h
    exact h (by norm_num [FLT_EPSILON])
  · intro s t
    rfl

/-- Witness for C9 at a concrete input: the zero vector has length 0
below FLT_EPSILON and normalizes to the zero vector. -/
theorem getNormalizedVector_safe_witness : getNormalizedVector 0 0 = 0 :=
  (getNormalizedVector_safe 0 0 le_rfl (by with_unfolding_all decide)).1
    (by with_unfolding_all decide)

/-- C4 (amended): a penetrating contact whose normal is non-walkable
(normal.dot up below maxSlopeCosine) and whose contact height over the
character base is strictly below lastStepUp produces no corrective
displacement, and dropping it from the manifold contact list leaves
recoverFromPenetration's position and penetration flag unchanged. -/
theorem recover_ignores_low_nonwalkable_contact (up : Vec3)
    (msc radius halfHeight lastStepUp : ℚ) (basePos : Vec3) (dirSign : ℚ)
    (pt : ManifoldContact)
    (hdist : pt.dist < 0)
    (hslope : (dirSign • pt.normalWorldOnB).dot up < msc)
    (hheight : ((if dirSign > 0 then pt.positionWorldOnB else pt.positionWorldOnA) -
        (basePos - (radius + halfHeight) • up)).dot up < lastStepUp) :
    contactDisplacement up msc radius halfHeight lastStepUp basePos dirSign pt = none ∧
    ∀ pre post : List (ℚ × ManifoldContact),
      recoverFromPenetration up msc radius halfHeight lastStepUp basePos
          (pre ++ (dirSign, pt) :: post) =
        recoverFromPenetration up msc radius halfHeight lastStepUp basePos (pre ++ post) := by
  have hnone : contactDisplacement up msc radius halfHeight lastStepUp basePos dirSign pt =
      none := by
    simp [contactDisplacement, hdist, hslope, hheight]
  refine ⟨hnone, ?_⟩
  intro pre post
  simp [recoverFromPenetration, List.foldl_append, hnone]

/-- Counterexample to C4 as stated: a walkable floor contact (normal
straight up) penetrating by 0.1 at height 0.1 over the character base,
below lastStepUp = 0.5, still produces the corrective displacement
(0, 1/50, 0): only non-walkable contacts are exempted by the height
test. -/
theorem recover_ledge_softness_counterexample :
    ledgeCexContact.dist < 0 ∧
    ((if (1 : ℚ) > 0 then ledgeCexContact.positionWorldOnB else
        ledgeCexContact.positionWorldOnA) -
      ((0 : Vec3) - ((3 / 10 : ℚ) + 7 / 10) • (⟨0, 1, 0⟩ : Vec3))).dot ⟨0, 1, 0⟩ < 1 / 2 ∧
    contactDisplacement ⟨0, 1, 0⟩ (7071 / 10000) (3 / 10) (7 / 10) (1 / 2) 0 1
      ledgeCexContact = some ⟨0, 1 / 50, 0⟩ := by
  with_unfolding_all decide

/-- Witness for the amended C4 at a concrete input: the same set-up with
a sideways (non-walkable) contact is ignored. -/
theorem recover_ignores_low_nonwalkable_contact_witness :
    contactDisplacement ⟨0, 1, 0⟩ (7071 / 10000) (3 / 10) (7 / 10) (1 / 2) 0 1
      ledgeSideContact = none :=
  (recover_ignores_low_nonwalkable_contact ⟨0, 1, 0⟩ (7071 / 10000) (3 / 10) (7 / 10)
    (1 / 2) 0 1 ledgeSideContact (by with_unfolding_all decide)
    (by with_unfolding_all decide) (by with_unfolding_all decide)).1

/-- C3 (amended): in the stepUp sweep callback, a contact from another
responding object whose normal fails the minSlopeDot test is discarded:
the recorded callback state, hence the closest-hit fraction the sweep
returns, is unchanged and the callback returns 1, so such an obstacle
does not shorten the step-up; a contact that passes the test overwrites
the recorded fraction with its own hit fraction regardless of any
further slope classification. -/
theorem stepUp_callback_slope_filter (up : Vec3) (minSlopeDot : ℚ)
    (cb : ClosestConvexCallbackState) (r : ConvexResult)
    (hme : r.isMe = false) (hresp : r.hasContactResponse = true) :
    (up.dot r.hitNormalWorld < minSlopeDot →
      notMeConvexAddSingleResult up minSlopeDot cb r = (cb, 1)) ∧
    (¬ up.dot r.hitNormalWorld < minSlopeDot →
      (notMeConvexAddSingleResult up minSlopeDot cb r).1.closestHitFraction = r.hitFraction ∧
        (notMeConvexAddSingleResult up minSlopeDot cb r).1.hasHit = true) := by
  constructor
  · intro h
    simp [notMeConvexAddSingleResult, hme, hresp, h]
  · intro h
    simp [notMeConvexAddSingleResult, closestConvexRecord, hme, hresp, h]

/-- Counterexample to C3 as stated: a horizontal-normal contact at
fraction 1/2 fails the 0.7071 slope test in stepUp's callback (up there
is -currentUp) and is discarded: the callback state keeps
closestHitFraction 1 and records no hit, so this obstacle does not
determine (shorten) the sweep fraction stepUp uses. -/
theorem stepUp_callback_slope_counterexample :
    Vec3.dot ⟨0, -1, 0⟩ slopeCexResult.hitNormalWorld < 7071 / 10000 ∧
    notMeConvexAddSingleResult ⟨0, -1, 0⟩ (7071 / 10000) slopeCexCb slopeCexResult =
      (slopeCexCb, 1) ∧
    (notMeConvexAddSingleResult ⟨0, -1, 0⟩ (7071 / 10000) slopeCexCb
        slopeCexResult).1.hasHit = false ∧
    ¬ (notMeConvexAddSingleResult ⟨0, -1, 0⟩ (7071 / 10000) slopeCexCb
        slopeCexResult).1.closestHitFraction = slopeCexResult.hitFraction := by
  with_unfolding_all decide

/-- Witness for the amended C3 at a concrete input: the failing-slope
contact leaves the fresh callback state untouched. -/
theorem stepUp_callback_slope_filter_witness :
    notMeConvexAddSingleResult ⟨0, -1, 0⟩ (7071 / 10000) slopeCexCb slopeCexResult =
      (slopeCexCb, 1) :=
  (stepUp_callback_slope_filter ⟨0, -1, 0⟩ (7071 / 10000) slopeCexCb slopeCexResult rfl
    rfl).1 (by with_unfolding_all decide)

/-- C10: the position postSimulation writes to the avatar (before
subtracting the rotated shape-local offset) is at squared distance at
most (max(5, 2 |walkDirection + verticalVelocity currentUp|) stepDt)^2
from the position preSimulation recorded; and when the raw ghost
displacement's length exceeds that bound, the written position is the
recorded position plus the displacement rescaled to exactly the bound. -/
theorem postSimulation_step_capped (position lastPosition walkDirection currentUp : Vec3)
    (verticalVelocity stepDt fvLen stepLen : ℚ)
    (hdt : 0 ≤ stepDt) (hfv0 : 0 ≤ fvLen)
    (hfv : fvLen ^ 2 = (walkDirection + verticalVelocity • currentUp).length2)
    (hsl0 : 0 ≤ stepLen)
    (hsl : stepLen ^ 2 = (position - lastPosition).length2) :
    (postSimulationPosition position lastPosition stepDt fvLen stepLen -
        lastPosition).length2 ≤ (max MAX_RESOLUTION_SPEED (2 * fvLen) * stepDt) ^ 2 ∧
    (stepLen > max MAX_RESOLUTION_SPEED (2 * fvLen) * stepDt →
      postSimulationPosition position lastPosition stepDt fvLen stepLen =
        lastPosition + ((max MAX_RESOLUTION_SPEED (2 * fvLen) * stepDt) / stepLen) •
          (position - lastPosition) ∧
      (postSimulationPosition position lastPosition stepDt fvLen stepLen -
          lastPosition).length2 = (max MAX_RESOLUTION_SPEED (2 * fvLen) * stepDt) ^ 2) := by
  have hM0 : 0 ≤ max MAX_RESOLUTION_SPEED (2 * fvLen) * stepDt := by
    apply mul_nonneg _ hdt
    have h5 : (0 : ℚ) ≤ MAX_RESOLUTION_SPEED := by norm_num [MAX_RESOLUTION_SPEED]
    exact le_trans h5 (le_max_left _ _)
  by_cases hgt : stepLen > max MAX_RESOLUTION_SPEED (2 * fvLen) * stepDt
  · have hne : stepLen ≠ 0 := by
      intro h
      rw [h] at hgt
      exact absurd hgt (by linarith)
    have hres : postSimulationPosition position lastPosition stepDt fvLen stepLen =
        lastPosition + ((max MAX_RESOLUTION_SPEED (2 * fvLen) * stepDt) / stepLen) •
          (position - lastPosition) := by
      simp [postSimulationPosition, hgt]
    have hlen : (postSimulationPosition position lastPosition stepDt fvLen stepLen -
        lastPosition).length2 = (max MAX_RESOLUTION_SPEED (2 * fvLen) * stepDt) ^ 2 := by
      rw [hres, Vec3.add_sub_cancel_left, Vec3.length2_smul, ← hsl, div_pow,
        div_mul_cancel₀ _ (pow_ne_zero 2 hne)]
    exact ⟨le_of_eq hlen, fun _ => ⟨hres, hlen⟩⟩
  · have hres : postSimulationPosition position lastPosition stepDt fvLen stepLen =
        position := by
      simp [postSimulationPosition, hgt]
    constructor
    · rw [hres, ← hsl]
      exact pow_le_pow_left hsl0 (le_of_not_lt hgt) 2
    · intro h
      exact absurd h hgt

/-- Witness for C10 at a concrete input: a displacement of length 3 with
stepDt 1 and zero final velocity is under the bound 5 and is written
unchanged. -/
theorem postSimulation_step_capped_witness :
    (postSimulationPosition ⟨3, 0, 0⟩ 0 1 0 3 - 0).length2 ≤
      (max MAX_RESOLUTION_SPEED (2 * 0) * 1) ^ 2 :=
  (postSimulation_step_capped ⟨3, 0, 0⟩ 0 0 0 0 1 0 3 (by with_unfolding_all decide)
    le_rfl (by with_unfolding_all decide) (by with_unfolding_all decide)
    (by with_unfolding_all decide)).1

end HifiCharacter
